import Mathlib

/-!
Verification of the keyboard-dispatch and selection core of the chromeui
repository.  The dispatcher (`KeyBindingService.js`) and the selection model
(`SelectionService.js`) are shallowly embedded: each JavaScript method becomes
a Lean function from the explicit state to the new state together with the
list of observable effects (event emissions, handler invocations) produced by
the call, in the order the source produces them.
-/

/-- A raw keyboard event as consumed by `handleKeyPress`:
base key string plus the four modifier flags. -/
structure KeyEvent where
  key : String
  ctrlKey : Bool
  altKey : Bool
  metaKey : Bool
  shiftKey : Bool
deriving DecidableEq, Repr

/-- `_buildKeyString(event)`: modifier names in fixed order (Ctrl, Alt, Meta,
Shift — Shift only when the base key name is longer than one character),
then the base key with the literal space mapped to `Space`, joined by `+`. -/
def buildKeyString (e : KeyEvent) : String :=
  let parts : List String :=
    (if e.ctrlKey then ["Ctrl"] else []) ++
    (if e.altKey then ["Alt"] else []) ++
    (if e.metaKey then ["Meta"] else []) ++
    (if e.shiftKey ∧ e.key.length > 1 then ["Shift"] else []) ++
    [if e.key = " " then "Space" else e.key]
  String.intercalate "+" parts

/-- The mutable state of `KeyBindingService`: current mode, the multi-key
buffer, and whether an ambiguity timeout is currently scheduled and alive
(`keyTimeout` set and neither fired nor cleared). -/
structure DState where
  mode : String
  buffer : String
  timerActive : Bool
deriving DecidableEq, Repr

/-- Observable effects of a dispatcher call, in source order.
`invoke key st` records that the handler bound to `key` was called while the
dispatcher was in state `st` (so `st` is what a throwing handler leaves
behind). -/
inductive DEffect where
  | preventDefault : DEffect
  | invoke : String → DState → DEffect
  | modeChanged : String → DEffect
deriving DecidableEq, Repr

/-- The binding registry: each entry maps an exact sequence string to the
list of modes in which the binding is active (handler and description are
identified by the sequence string itself). -/
abbrev Registry := List (String × List String)

/-- JavaScript `k.startsWith(pre)`, computed on the character lists. -/
def jsStartsWith (k pre : String) : Bool :=
  pre.data.isPrefixOf k.data

/-- `setMode(mode)`: sets the mode, clears the buffer and emits
`MODE_CHANGED` with the new mode.  The source contains no `clearTimeout`
here, so the timer flag is left untouched. -/
def setMode (s : DState) (m : String) : DState × List DEffect :=
  ({ s with mode := m, buffer := "" }, [DEffect.modeChanged m])

/-- The `setTimeout` callback scheduled in `handleKeyPress`: when the alive
timer fires it resets the buffer; the timer is then no longer pending. -/
def timerFire (s : DState) : DState :=
  { s with buffer := "", timerActive := false }

/-- `handleKeyPress(event)`: returns the new dispatcher state, the boolean
result of the call, and the effects in source order.  Mirrors the source:
mode gate, buffer append, unconditional `clearTimeout`, exact-match lookup,
then the proper-continuation scan. -/
def handleKeyPress (bindings : Registry) (s : DState) (ev : KeyEvent) :
    DState × Bool × List DEffect :=
  let key := buildKeyString ev
  if s.mode ≠ "normal" ∧ ¬(ev.key = "Escape" ∨ ev.key = "Enter") then
    (s, false, [])
  else
    let s1 : DState := { s with buffer := s.buffer ++ key, timerActive := false }
    let fallback : DState × Bool × List DEffect :=
      if bindings.any (fun b => jsStartsWith b.1 s1.buffer && b.1 != s1.buffer) then
        ({ s1 with timerActive := true }, true, [])
      else
        ({ s1 with buffer := "" }, false, [])
    match bindings.lookup s1.buffer with
    | some modes =>
        if s1.mode ∈ modes then
          let s2 : DState := { s1 with buffer := "" }
          (s2, true, [DEffect.preventDefault, DEffect.invoke s1.buffer s2])
        else
          fallback
    | none => fallback

/-- The freshly constructed dispatcher: mode `normal`, empty buffer,
no timer. -/
def dInit : DState := { mode := "normal", buffer := "", timerActive := false }

/-- A plain unmodified key press for base key `k`. -/
def plainKey (k : String) : KeyEvent :=
  { key := k, ctrlKey := false, altKey := false, metaKey := false, shiftKey := false }

/-- Registry with both `d` and `dd` bound in `normal` mode. -/
def ddRegistry : Registry := [("d", ["normal"]), ("dd", ["normal"])]

/-- C1 counterexample: with both `d` and `dd` registered for `normal` mode and
an empty buffer, pressing `d` DOES invoke the `d` handler immediately and
schedules no ambiguity timer, contrary to the claimed pending state. -/
theorem c1_counterexample :
    DEffect.invoke "d" { mode := "normal", buffer := "", timerActive := false } ∈
        (handleKeyPress ddRegistry dInit (plainKey "d")).2.2 ∧
    (handleKeyPress ddRegistry dInit (plainKey "d")).1.timerActive = false := by
  decide

/-- C1 (amended): with both `d` and `dd` registered for `normal` mode and an
empty buffer, pressing `d` resolves the `d` binding immediately — the exact
match is checked before the proper-continuation scan, so the call prevents
default, resets the buffer, invokes the `d` handler, returns `true`, and
enters no pending state. -/
theorem c1_exact_match_fires_immediately :
    handleKeyPress ddRegistry dInit (plainKey "d") =
      ({ mode := "normal", buffer := "", timerActive := false }, true,
       [DEffect.preventDefault,
        DEffect.invoke "d" { mode := "normal", buffer := "", timerActive := false }]) := by
  decide

/-- C4 counterexample: with an ambiguity timer pending, `setMode "search"`
leaves the timer pending — the source `setMode` contains no `clearTimeout`,
contrary to the claim that it cancels any pending ambiguity timer. -/
theorem c4_counterexample :
    (setMode { mode := "normal", buffer := "g", timerActive := true } "search").1.timerActive
      = true := by
  decide

/-- C4 (amended): for every mode argument, `setMode` sets the mode field,
resets the buffer to empty, and emits a mode-changed notification carrying
the new mode, but leaves any pending ambiguity timer untouched. -/
theorem c4_setMode_behavior (s : DState) (m : String) :
    setMode s m =
      ({ mode := m, buffer := "", timerActive := s.timerActive },
       [DEffect.modeChanged m]) :=
  rfl

/-- C5: every handler invocation performed by `handleKeyPress` happens with
the dispatcher buffer already reset to empty, so a handler that throws leaves
the dispatcher with an empty buffer. -/
theorem c5_buffer_reset_before_invoke (bindings : Registry) (s : DState)
    (ev : KeyEvent) (k : String) (st : DState)
    (h : DEffect.invoke k st ∈ (handleKeyPress bindings s ev).2.2) :
    st.buffer = "" := by
  unfold handleKeyPress at h
  split at h
  · simp at h
  · dsimp only at h
    split at h
    · split at h
      · simp only [List.mem_cons, List.not_mem_nil, or_false] at h
        rcases h with h | h
        · exact absurd h (by simp)
        · rw [show st = _ from (by injection h)]
      · split at h <;> simp at h
    · split at h <;> simp at h

/-- C5 witness: a concrete invocation (pressing `d` with `d` bound) whose
recorded invocation state has an empty buffer. -/
theorem c5_witness :
    DEffect.invoke "d" { mode := "normal", buffer := "", timerActive := false } ∈
        (handleKeyPress [("d", ["normal"])] dInit (plainKey "d")).2.2 ∧
    ({ mode := "normal", buffer := "", timerActive := false } : DState).buffer = "" :=
  ⟨by decide,
   c5_buffer_reset_before_invoke [("d", ["normal"])] dInit (plainKey "d") "d"
     { mode := "normal", buffer := "", timerActive := false } (by decide)⟩

/-- C6: with only `gg` registered for `normal` mode, the first `g` returns
`true` with no handler invoked and an active timer (pending state); a second
`g` before the timer fires invokes the `gg` handler and leaves the buffer
empty; and if the timer fires first, the next `g` re-enters the pending
state instead of resolving. -/
theorem c6_gg_prefix_ambiguity :
    handleKeyPress [("gg", ["normal"])] dInit (plainKey "g") =
      ({ mode := "normal", buffer := "g", timerActive := true }, true, []) ∧
    handleKeyPress [("gg", ["normal"])]
        { mode := "normal", buffer := "g", timerActive := true } (plainKey "g") =
      ({ mode := "normal", buffer := "", timerActive := false }, true,
       [DEffect.preventDefault,
        DEffect.invoke "gg" { mode := "normal", buffer := "", timerActive := false }]) ∧
    timerFire { mode := "normal", buffer := "g", timerActive := true } = dInit ∧
    handleKeyPress [("gg", ["normal"])]
        (timerFire { mode := "normal", buffer := "g", timerActive := true }) (plainKey "g") =
      ({ mode := "normal", buffer := "g", timerActive := true }, true, []) := by
  refine ⟨by decide, by decide, by decide, by decide⟩

/-- C7: when the mode is not `normal` and the raw base key is neither
`Escape` nor `Enter`, `handleKeyPress` returns `false`, produces no effects
(no handler runs), and leaves the dispatcher state unchanged. -/
theorem c7_non_normal_mode_ignores_key (bindings : Registry) (s : DState)
    (ev : KeyEvent) (hm : s.mode ≠ "normal")
    (h1 : ev.key ≠ "Escape") (h2 : ev.key ≠ "Enter") :
    handleKeyPress bindings s ev = (s, false, []) := by
  unfold handleKeyPress
  rw [if_pos ⟨hm, by simp [h1, h2]⟩]

/-- C7 witness: `x` registered for `normal` only, dispatcher in mode
`search`; pressing `x` returns `false`, runs no handler, changes nothing. -/
theorem c7_witness :
    handleKeyPress [("x", ["normal"])]
        { mode := "search", buffer := "", timerActive := false } (plainKey "x") =
      ({ mode := "search", buffer := "", timerActive := false }, false, []) :=
  c7_non_normal_mode_ignores_key [("x", ["normal"])]
    { mode := "search", buffer := "", timerActive := false } (plainKey "x")
    (by decide) (by decide) (by decide)

/-- A list item: the selection model only looks at the `id` field.  Ids are
numbers in the application; `id = 0` models a JavaScript-falsy id, since the
source guards insertions with the truthiness test `items[i]?.id`. -/
structure Item where
  id : Nat
deriving DecidableEq, Repr

/-- The mutable state of `SelectionService`.  `cursorIndex` and
`visualStartIndex` are integers because the source can drive the cursor
below zero (`Math.min(cursorIndex + count, items.length - 1)` on an empty
list).  `selectedIds` is the JavaScript `Set` in insertion order. -/
structure SState where
  items : List Item
  cursorIndex : Int
  selectedIds : List Nat
  visualMode : Bool
  visualStartIndex : Int
deriving DecidableEq, Repr

/-- Events emitted on the bus by the selection model. -/
inductive SEvent where
  | cursorMoved : Int → SEvent
  | selectionChanged : List Nat → SEvent
deriving DecidableEq, Repr

/-- The freshly constructed selection model. -/
def sInit : SState :=
  { items := [], cursorIndex := 0, selectedIds := [], visualMode := false,
    visualStartIndex := 0 }

/-- JavaScript `array[i]` for an integer index: `undefined` (here `none`)
when out of range. -/
def itemAt (l : List Item) (i : Int) : Option Item :=
  if i < 0 then none else l[i.toNat]?

/-- `Set.add`: appends the id unless already present (JavaScript sets keep
insertion order and ignore duplicate adds). -/
def insertId (l : List Nat) (x : Nat) : List Nat :=
  if x ∈ l then l else l ++ [x]

/-- The loop body of `_updateVisualSelection`: for `i` from `start` to `endI`
inclusive, add `items[i].id` to the set whenever `items[i]?.id` is truthy. -/
def rangeIds (items : List Item) (start endI : Int) : List Nat :=
  (List.range (endI - start + 1).toNat).foldl
    (fun acc k =>
      match itemAt items (start + k) with
      | some it => if it.id ≠ 0 then insertId acc it.id else acc
      | none => acc)
    []

/-- `_updateVisualSelection()`: replaces `selectedIds` with the inclusive id
range between the visual anchor and the cursor (order-independent) and emits
`SELECTION_CHANGED` with the resulting id list. -/
def updateVisualSelection (s : SState) : SState × List SEvent :=
  let start := min s.visualStartIndex s.cursorIndex
  let endI := max s.visualStartIndex s.cursorIndex
  let ids := rangeIds s.items start endI
  ({ s with selectedIds := ids }, [SEvent.selectionChanged ids])

/-- `_moveCursor(newIndex)`: sets the cursor, recomputes the visual selection
when visual mode is active, then emits `CURSOR_MOVED` unconditionally. -/
def moveCursor (s : SState) (newIndex : Int) : SState × List SEvent :=
  let s1 := { s with cursorIndex := newIndex }
  if s1.visualMode then
    let (s2, evs) := updateVisualSelection s1
    (s2, evs ++ [SEvent.cursorMoved s2.cursorIndex])
  else
    (s1, [SEvent.cursorMoved s1.cursorIndex])

/-- `moveDown(count)`: `Math.min(cursorIndex + count, items.length - 1)` —
note the missing floor at 0 when `items` is empty. -/
def moveDown (s : SState) (count : Nat) : SState × List SEvent :=
  moveCursor s (min (s.cursorIndex + count) ((s.items.length : Int) - 1))

/-- `moveUp(count)`: `Math.max(cursorIndex - count, 0)`. -/
def moveUp (s : SState) (count : Nat) : SState × List SEvent :=
  moveCursor s (max (s.cursorIndex - count) 0)

/-- `moveToFirst()`. -/
def moveToFirst (s : SState) : SState × List SEvent :=
  moveCursor s 0

/-- `moveToLast()`. -/
def moveToLast (s : SState) : SState × List SEvent :=
  moveCursor s ((s.items.length : Int) - 1)

/-- `setItems(items)`: replaces the list wholesale, clamps the cursor only
when it is at or past the new length, and emits `CURSOR_MOVED`.  The visual
selection is NOT recomputed here. -/
def setItems (s : SState) (items : List Item) : SState × List SEvent :=
  let c :=
    if s.cursorIndex ≥ (items.length : Int) then max 0 ((items.length : Int) - 1)
    else s.cursorIndex
  ({ s with items := items, cursorIndex := c }, [SEvent.cursorMoved c])

/-- `toggleVisualMode()`: flips the flag; on entry records the anchor, clears
the selection and recomputes the one-item range (which itself emits
`SELECTION_CHANGED`); on exit clears the selection; finally emits
`SELECTION_CHANGED` with the current id list. -/
def toggleVisualMode (s : SState) : SState × List SEvent :=
  let s1 := { s with visualMode := !s.visualMode }
  if s1.visualMode then
    let s2 := { s1 with visualStartIndex := s1.cursorIndex, selectedIds := [] }
    let (s3, evs) := updateVisualSelection s2
    (s3, evs ++ [SEvent.selectionChanged s3.selectedIds])
  else
    let s2 := { s1 with selectedIds := [] }
    (s2, [SEvent.selectionChanged []])

/-- A cursor-movement call, for reasoning about arbitrary call sequences. -/
inductive Move where
  | down : Nat → Move
  | up : Nat → Move
deriving DecidableEq, Repr

/-- Apply one movement call, keeping only the state. -/
def applyMove (s : SState) (m : Move) : SState :=
  match m with
  | Move.down c => (moveDown s c).1
  | Move.up c => (moveUp s c).1

/-- Apply a sequence of movement calls. -/
def applyMoves (s : SState) (ms : List Move) : SState :=
  ms.foldl applyMove s

theorem moveCursor_cursorIndex (s : SState) (i : Int) :
    (moveCursor s i).1.cursorIndex = i := by
  unfold moveCursor updateVisualSelection
  dsimp only
  split <;> rfl

theorem moveCursor_items (s : SState) (i : Int) :
    (moveCursor s i).1.items = s.items := by
  unfold moveCursor updateVisualSelection
  dsimp only
  split <;> rfl

theorem moveCursor_visualMode (s : SState) (i : Int) :
    (moveCursor s i).1.visualMode = s.visualMode := by
  unfold moveCursor updateVisualSelection
  dsimp only
  split <;> rfl

theorem applyMove_items (s : SState) (m : Move) :
    (applyMove s m).items = s.items := by
  cases m <;> simp [applyMove, moveDown, moveUp, moveCursor_items]

theorem applyMove_bounds (s : SState) (m : Move) (hne : s.items ≠ [])
    (h0 : 0 ≤ s.cursorIndex) (h1 : s.cursorIndex < (s.items.length : Int)) :
    0 ≤ (applyMove s m).cursorIndex ∧
    (applyMove s m).cursorIndex < (s.items.length : Int) := by
  have hlen : 1 ≤ (s.items.length : Int) := by
    have := List.length_pos.mpr hne
    omega
  cases m with
  | down c =>
      have hc : (applyMove s (Move.down c)).cursorIndex =
          min (s.cursorIndex + c) ((s.items.length : Int) - 1) := by
        simp [applyMove, moveDown, moveCursor_cursorIndex]
      rw [hc]
      refine ⟨le_min (by omega) (by omega), lt_of_le_of_lt (min_le_right _ _) (by omega)⟩
  | up c =>
      have hc : (applyMove s (Move.up c)).cursorIndex =
          max (s.cursorIndex - c) 0 := by
        simp [applyMove, moveUp, moveCursor_cursorIndex]
      rw [hc]
      refine ⟨le_max_right _ _, max_lt (by omega) (by omega)⟩

/-- C2 counterexample: from the initial state (empty `items`, cursor 0), one
`moveDown(1)` sets `cursorIndex` to `min(0 + 1, 0 - 1) = -1`, not the claimed
sentinel 0. -/
theorem c2_counterexample :
    (moveDown sInit 1).1.cursorIndex = -1 ∧ (-1 : Int) ≠ 0 := by
  decide

/-- C2 (amended): when `items` is non-empty and the cursor starts in
`[0, len(items) - 1]`, every sequence of `moveDown`/`moveUp` calls keeps
`cursorIndex` within `[0, len(items) - 1]` (and no call fails); but when
`items` is empty the sentinel is not preserved — `moveDown` drives the
cursor to `-1` (see the counterexample), `moveUp` returns it to 0. -/
theorem c2_cursor_stays_in_bounds (s : SState) (ms : List Move)
    (hne : s.items ≠ []) (h0 : 0 ≤ s.cursorIndex)
    (h1 : s.cursorIndex < (s.items.length : Int)) :
    0 ≤ (applyMoves s ms).cursorIndex ∧
    (applyMoves s ms).cursorIndex < ((applyMoves s ms).items.length : Int) := by
  induction ms generalizing s with
  | nil => exact ⟨h0, h1⟩
  | cons m rest ih =>
      have hb := applyMove_bounds s m hne h0 h1
      have hi := applyMove_items s m
      have hrec := ih (applyMove s m) (by rw [hi]; exact hne) hb.1 (by rw [hi]; exact hb.2)
      simpa [applyMoves, List.foldl] using hrec

/-- Concrete two-item state used by the C2 witness. -/
def c2S : SState :=
  { items := [⟨1⟩, ⟨2⟩], cursorIndex := 0, selectedIds := [],
    visualMode := false, visualStartIndex := 0 }

/-- C2 witness: two items, cursor 0, an overshooting down move followed by an
overshooting up move; the cursor stays in bounds. -/
theorem c2_witness :
    c2S.items ≠ [] ∧
    (0 ≤ (applyMoves c2S [Move.down 5, Move.up 9]).cursorIndex ∧
     (applyMoves c2S [Move.down 5, Move.up 9]).cursorIndex <
       ((applyMoves c2S [Move.down 5, Move.up 9]).items.length : Int)) :=
  ⟨by decide,
   c2_cursor_stays_in_bounds c2S [Move.down 5, Move.up 9]
     (by decide) (by decide) (by decide)⟩

/-- A visual-mode state satisfying the range invariant, then refreshed by
`setItems` with a different single item. -/
def c3Bad : SState :=
  (setItems
    { items := [⟨1⟩], cursorIndex := 0, selectedIds := [1],
      visualMode := true, visualStartIndex := 0 }
    [⟨2⟩]).1

/-- C3 counterexample: `setItems` does not recompute the visual selection —
after a content refresh replacing item id 1 by id 2 while visual mode is
active, `selectedIds` is still `[1]` but the anchor-to-cursor id range of the
new items is `[2]`. -/
theorem c3_counterexample :
    c3Bad.visualMode = true ∧ c3Bad.selectedIds = [1] ∧
    rangeIds c3Bad.items (min c3Bad.visualStartIndex c3Bad.cursorIndex)
        (max c3Bad.visualStartIndex c3Bad.cursorIndex) = [2] ∧
    ([1] : List Nat) ≠ [2] := by
  decide

theorem moveCursor_visual_range (s : SState) (i : Int) (h : s.visualMode = true) :
    (moveCursor s i).1.selectedIds =
      rangeIds (moveCursor s i).1.items
        (min (moveCursor s i).1.visualStartIndex (moveCursor s i).1.cursorIndex)
        (max (moveCursor s i).1.visualStartIndex (moveCursor s i).1.cursorIndex) := by
  simp [moveCursor, updateVisualSelection, h]

/-- C3 (amended): while visual mode is active, every cursor-moving operation
(`moveDown`, `moveUp`, `moveToFirst`, `moveToLast`) re-establishes
`selectedIds` as exactly the inclusive id range between the anchor and the
cursor; `setItems`, however, does not recompute the selection, so the
equality can be broken by a content refresh (see the counterexample). -/
theorem c3_visual_range_after_moves (s : SState) (c : Nat)
    (h : s.visualMode = true) :
    ((moveDown s c).1.selectedIds =
      rangeIds (moveDown s c).1.items
        (min (moveDown s c).1.visualStartIndex (moveDown s c).1.cursorIndex)
        (max (moveDown s c).1.visualStartIndex (moveDown s c).1.cursorIndex)) ∧
    ((moveUp s c).1.selectedIds =
      rangeIds (moveUp s c).1.items
        (min (moveUp s c).1.visualStartIndex (moveUp s c).1.cursorIndex)
        (max (moveUp s c).1.visualStartIndex (moveUp s c).1.cursorIndex)) ∧
    ((moveToFirst s).1.selectedIds =
      rangeIds (moveToFirst s).1.items
        (min (moveToFirst s).1.visualStartIndex (moveToFirst s).1.cursorIndex)
        (max (moveToFirst s).1.visualStartIndex (moveToFirst s).1.cursorIndex)) ∧
    ((moveToLast s).1.selectedIds =
      rangeIds (moveToLast s).1.items
        (min (moveToLast s).1.visualStartIndex (moveToLast s).1.cursorIndex)
        (max (moveToLast s).1.visualStartIndex (moveToLast s).1.cursorIndex)) :=
  ⟨moveCursor_visual_range s _ h, moveCursor_visual_range s _ h,
   moveCursor_visual_range s _ h, moveCursor_visual_range s _ h⟩

/-- Concrete three-item visual-mode state used by the C3 witness. -/
def c3S : SState :=
  { items := [⟨1⟩, ⟨2⟩, ⟨3⟩], cursorIndex := 0, selectedIds := [1],
    visualMode := true, visualStartIndex := 0 }

/-- C3 witness: three items with the anchor at 0; after `moveDown 2` in
visual mode the selection is exactly the id range 0..2. -/
theorem c3_witness :
    c3S.visualMode = true ∧
    ((moveDown c3S 2).1.selectedIds =
      rangeIds (moveDown c3S 2).1.items
        (min (moveDown c3S 2).1.visualStartIndex (moveDown c3S 2).1.cursorIndex)
        (max (moveDown c3S 2).1.visualStartIndex (moveDown c3S 2).1.cursorIndex)) :=
  ⟨by decide, (c3_visual_range_after_moves c3S 2 (by decide)).1⟩

/-- A state already in visual mode over one item, used as C8 counterexample. -/
def c8S : SState :=
  { items := [⟨1⟩], cursorIndex := 0, selectedIds := [],
    visualMode := true, visualStartIndex := 0 }

/-- C8 counterexample: starting IN visual mode, toggling twice re-enters
visual mode and recomputes the one-item range, so `selectedIds` ends as
`[1]`, not empty — the claimed round trip fails for states that start with
`visualMode = true`. -/
theorem c8_counterexample :
    (toggleVisualMode (toggleVisualMode c8S).1).1.selectedIds = [1] ∧
    ([1] : List Nat) ≠ [] := by
  decide

/-- C8 (amended): for every SelectionState with `visualMode = false`, calling
`toggleVisualMode()` twice with no intervening cursor move leaves
`selectedIds` empty and restores `visualMode` to its original value `false`;
starting from `visualMode = true` the flag is also restored but the selection
ends as the one-item range at the cursor (see the counterexample). -/
theorem c8_double_toggle_round_trip (s : SState) (h : s.visualMode = false) :
    (toggleVisualMode (toggleVisualMode s).1).1.selectedIds = [] ∧
    (toggleVisualMode (toggleVisualMode s).1).1.visualMode = s.visualMode := by
  simp [toggleVisualMode, updateVisualSelection, h]

/-- C8 witness: the double toggle on the concrete non-visual two-item state. -/
theorem c8_witness :
    c2S.visualMode = false ∧
    ((toggleVisualMode (toggleVisualMode c2S).1).1.selectedIds = [] ∧
     (toggleVisualMode (toggleVisualMode c2S).1).1.visualMode = c2S.visualMode) :=
  ⟨by decide, c8_double_toggle_round_trip c2S (by decide)⟩

/-- C10: entering visual mode (toggle with `visualMode = false`) emits
exactly two selection-changed notifications in the single call — one from the
immediate `_updateVisualSelection` and one from the toggle's final emission —
both carrying the id range of the one-index span at the anchor (the cursor
position at entry). -/
theorem c10_enter_visual_emits_twice (s : SState) (h : s.visualMode = false) :
    (toggleVisualMode s).2 =
      [SEvent.selectionChanged (rangeIds s.items s.cursorIndex s.cursorIndex),
       SEvent.selectionChanged (rangeIds s.items s.cursorIndex s.cursorIndex)] := by
  simp [toggleVisualMode, updateVisualSelection, h]

/-- C10 witness: entering visual mode on the concrete two-item state emits
the two selection-changed events, both with payload `[1]`. -/
theorem c10_witness :
    c2S.visualMode = false ∧
    (toggleVisualMode c2S).2 =
      [SEvent.selectionChanged (rangeIds c2S.items c2S.cursorIndex c2S.cursorIndex),
       SEvent.selectionChanged (rangeIds c2S.items c2S.cursorIndex c2S.cursorIndex)] :=
  ⟨by decide, c10_enter_visual_emits_twice c2S (by decide)⟩

/-- A subscribed callback: receives the payload and either returns normally
or throws (modelled in the exception monad). -/
abbrev Callback := Nat → Except String Unit

/-- The body of one `forEach` iteration of `EventEmitter.emit`:
`try { callback(data) } catch (error) { console.error(...) }` — a thrown
error is caught and recorded as a log entry, never re-thrown. -/
def runCallback (cb : Callback) (data : Nat) : Option String :=
  match cb data with
  | Except.ok _ => none
  | Except.error e => some e

/-- One step of the `forEach` loop in the JavaScript exception monad: an
uncaught exception would surface as `Except.error` and abort the remaining
iterations, but the per-iteration catch converts it into a logged entry and
the loop continues. -/
def emitStep (data : Nat) (acc : Except String (List (Option String)))
    (cb : Callback) : Except String (List (Option String)) := do
  let log ← acc
  match cb data with
  | Except.ok _ => pure (log ++ [none])
  | Except.error e => pure (log ++ [some e])

/-- The `callbacks.forEach(...)` loop of `emit`. -/
def emitLoop (cbs : List Callback) (data : Nat) :
    Except String (List (Option String)) :=
  cbs.foldl (emitStep data) (Except.ok [])

/-- `emit(event, data)`: looks up the subscribers for the event (no-op when
absent) and runs the loop over them. -/
def emit (listeners : List (String × List Callback)) (event : String)
    (data : Nat) : Except String (List (Option String)) :=
  match listeners.lookup event with
  | some cbs => emitLoop cbs data
  | none => Except.ok []

theorem emitLoop_foldl_ok (data : Nat) (cbs : List Callback)
    (acc : List (Option String)) :
    cbs.foldl (emitStep data) (Except.ok acc) =
      Except.ok (acc ++ cbs.map (fun cb => runCallback cb data)) := by
  induction cbs generalizing acc with
  | nil => simp
  | cons cb rest ih =>
      have hstep : emitStep data (Except.ok acc) cb =
          Except.ok (acc ++ [runCallback cb data]) := by
        unfold emitStep runCallback
        cases cb data <;> rfl
      simp [List.foldl, hstep, ih]

/-- C9: `emit` never propagates a callback's exception to its caller (its
result is always `Except.ok`), and the produced log has exactly one entry
per subscribed callback — each callback is invoked and its own outcome
recorded regardless of whether earlier callbacks threw. -/
theorem c9_emit_invokes_all_and_catches (listeners : List (String × List Callback))
    (event : String) (data : Nat) :
    emit listeners event data =
      Except.ok (((listeners.lookup event).getD []).map
        (fun cb => runCallback cb data)) := by
  unfold emit
  cases h : listeners.lookup event with
  | none => simp
  | some cbs => simpa [emitLoop] using emitLoop_foldl_ok data cbs []
